import Mathlib

/-!
Verification of the message ingestion, deduplication and summarization
pipeline of a Telegram message-summarizer.  The development shallowly
embeds the two database modules (`src/teleton/db.py`, `src/bot/db.py`),
the ingestion normalizer of `src/teleton/main.py` (backfill loop and the
live event handler), and the summarization command handler of
`src/bot/main_telebot.py`, and proves the documented properties of
insert idempotence, batch selection, flag marking, the ignore-list
filter, timestamp normalization and error reporting.
-/

namespace TelegramSummarizer

/-- Row of the `messages` table created by `init_db` in `src/teleton/db.py`
(and identically by `ensure_schema` in `src/bot/db.py`): columns
`id, chat_id, sender, sender_id, text, date, summarized`.  Timestamps are
modelled as integers (`date` orders chronologically); nullable columns are
`Option`. -/
structure Row where
  id : Int
  chat_id : Int
  sender : Option String
  sender_id : Option Int
  text : Option String
  date : Int
  summarized : Bool
deriving Repr, DecidableEq

/-- Database state: the rows of the `messages` table in insertion order. -/
abbrev Db := List Row

/-- Fault injection for an internal database failure inside `save_message`
(anything the `except Exception` clause of `src/teleton/db.py` would catch:
a failed connect, a failed execute, a failed commit). -/
inductive DbFault
  | connectFailure
  | executeFailure
deriving Repr, DecidableEq

/-- Uniqueness constraints of the `messages` schema, as written in the
CREATE TABLE statement of `src/teleton/db.py`: `id INTEGER PRIMARY KEY`
(first disjunct) and `UNIQUE(id, chat_id)` (second disjunct).  An
`INSERT OR IGNORE` is skipped exactly when one of them is violated. -/
def insert_conflict (s : Db) (message_id chat_id : Int) : Bool :=
  s.any (fun r => r.id == message_id) ||
  s.any (fun r => r.id == message_id && r.chat_id == chat_id)

/-- Embedding of `save_message` from `src/teleton/db.py`: performs
`INSERT OR IGNORE` of the new row (with `summarized = 0`), returns `true`
when a row was actually inserted (`cursor.rowcount > 0`) and `false` for a
skipped duplicate.  The `fault` argument injects an internal database
failure: the `except Exception` handler logs and returns `false`, so the
function is total and never raises to its caller. -/
def save_message (fault : Option DbFault) (s : Db) (message_id chat_id : Int)
    (sender : Option String) (sender_id : Option Int) (text : Option String)
    (date : Int) : Bool × Db :=
  match fault with
  | some _ => (false, s)
  | none =>
    if insert_conflict s message_id chat_id then
      (false, s)
    else
      (true, s ++ [{ id := message_id, chat_id := chat_id, sender := sender,
                     sender_id := sender_id, text := text, date := date,
                     summarized := false }])

/-- Embedding of `get_message_count` from `src/teleton/db.py` (fault-free
execution).  The source guards the per-chat branch with Python's
`if chat_id:`, which is false both for `None` and for the integer `0`, so
only a non-zero `chat_id` selects the filtered count. -/
def get_message_count (s : Db) (chat_id : Option Int) : Nat :=
  match chat_id with
  | some c =>
    if c != 0 then (s.filter (fun r => r.chat_id == c)).length
    else s.length
  | none => s.length

/-- Embedding of `fetch_unsummarized` from `src/bot/db.py`:
`SELECT ... WHERE summarized = 0 ORDER BY date DESC LIMIT ?`.  The sort is
by `date` descending (SQLite leaves the relative order of equal dates
unspecified; merge sort picks one such order). -/
def fetch_unsummarized (s : Db) (limit : Nat) : List Row :=
  ((s.filter (fun r => r.summarized == false)).mergeSort
      (fun a b => decide (b.date ≤ a.date))).take limit

/-- Embedding of `mark_summarized` from `src/bot/db.py`: early return on an
empty id sequence, otherwise `UPDATE messages SET summarized = 1 WHERE id
IN (...)`. -/
def mark_summarized (s : Db) (message_ids : List Int) : Db :=
  if message_ids.isEmpty then s
  else
    s.map (fun r =>
      if message_ids.contains r.id then { r with summarized := true } else r)

/-- Raw timestamp attached to a platform message: either naive (no
`tzinfo`) or aware, carrying its UTC offset.  `wall` is the wall-clock
reading and `offset` the zone's offset, both in minutes. -/
inductive RawDate
  | naive (wall : Int)
  | aware (wall : Int) (offset : Int)
deriving Repr, DecidableEq

/-- An aware local timestamp: wall-clock reading plus the offset of the
zone it is expressed in (minutes east of UTC).  Models a CPython aware
`datetime` in a fixed-offset zone. -/
structure LocalDT where
  wall : Int
  offset : Int
deriving Repr, DecidableEq

/-- The UTC instant an aware timestamp denotes. -/
def LocalDT.instant (d : LocalDT) : Int := d.wall - d.offset

/-- Timestamp normalization of `src/teleton/main.py` (identical in
`collect_messages` lines 171-177 and `handle_new_message` lines 258-264),
for a system whose local zone has offset `localOffset`: a naive timestamp
gets `replace(tzinfo=timezone.utc)` (reinterpreted as UTC, so its instant
is its wall reading) and then `astimezone()`; an aware timestamp gets
`astimezone()` directly.  `astimezone()` keeps the instant and re-expresses
it in the local zone. -/
def normalize_date (localOffset : Int) : RawDate → LocalDT
  | .naive wall => { wall := wall + localOffset, offset := localOffset }
  | .aware wall offset => { wall := wall - offset + localOffset, offset := localOffset }

/-- Sender object of a raw event: a `User` (first/last name, last name
nullable) or some other entity (channel/group) whose `title` attribute may
be absent.  `Option SenderObj` models `message.sender`, which is `None`
for typical channel broadcasts. -/
inductive SenderObj
  | user (first : String) (last : Option String)
  | entity (title : Option String)
deriving Repr, DecidableEq

/-- Raw platform event as consumed by the ingestion pipeline: message id,
optional sender object, optional numeric sender id, optional text, raw
timestamp. -/
structure RawEvent where
  id : Int
  sender : Option SenderObj
  sender_id : Option Int
  text : Option String
  date : RawDate
deriving Repr, DecidableEq

/-- Python `a or b` for an optional string `a`: `None` and the empty
string are falsy, anything else is returned verbatim. -/
def str_or (a : Option String) (b : String) : String :=
  match a with
  | none => b
  | some s => if s.isEmpty then b else s

/-- Python `str()` applied to an optional integer (`str(None)` is the
string "None"). -/
def py_str_opt_int : Option Int → String
  | none => "None"
  | some i => toString i

/-- Sender display-name resolution of `src/teleton/main.py` (lines 147-158
of `collect_messages`, identically lines 234-245 of `handle_new_message`):
a `User` sender yields `f"{first} {last or ''}".strip()`; any other sender
object yields `getattr(sender, 'title', None) or str(message.sender_id)`;
when there is no sender object, or the resolved name is falsy, the chat
title is used. -/
def resolve_sender_name (ev : RawEvent) (chat_title : String) : String :=
  let sender_name : Option String :=
    match ev.sender with
    | none => none
    | some (.user first last) => some ((first ++ " " ++ str_or last "").trim)
    | some (.entity title) => some (str_or title (py_str_opt_int ev.sender_id))
  str_or sender_name chat_title

/-- The configured ignored senders of `src/teleton/main.py` line 29. -/
def IGNORED_SENDERS : List String := ["ZeroBot0912", "BotFather"]

/-- Placeholder text stored for media-only messages
(`message.message or "[медиа или без текста]"`). -/
def MEDIA_PLACEHOLDER : String := "[медиа или без текста]"

/-- Body of the per-message backfill loop of `collect_messages`
(`src/teleton/main.py` lines 146-201): resolve the sender name, `continue`
without saving or counting when it is in `IGNORED_SENDERS`, otherwise
resolve text (placeholder when falsy), sender id (falling back to the chat
id) and the localized date, and call `save_message`.  Returns whether the
message was saved (counted) together with the new database state. -/
def process_event (localOffset : Int) (s : Db) (chat_id : Int)
    (chat_title : String) (ev : RawEvent) : Bool × Db :=
  let sender_name := resolve_sender_name ev chat_title
  if IGNORED_SENDERS.contains sender_name then
    (false, s)
  else
    let text := str_or ev.text MEDIA_PLACEHOLDER
    let sender_id_value := ev.sender_id.getD chat_id
    let local_date := (normalize_date localOffset ev.date).wall
    save_message none s ev.id chat_id (some sender_name) (some sender_id_value)
      (some text) local_date

/-- One iteration of the backfill loop acting on the accumulator
`(collected_count, state)`: the counter grows only when `process_event`
actually saved a new row. -/
def collect_step (localOffset : Int) (chat_id : Int) (chat_title : String)
    (acc : Nat × Db) (ev : RawEvent) : Nat × Db :=
  let step := process_event localOffset acc.2 chat_id chat_title ev
  (acc.1 + (if step.1 then 1 else 0), step.2)

/-- Embedding of `collect_messages` (`src/teleton/main.py` lines 126-208):
iterates over the fetched history items, processing each one and counting
the genuinely saved messages (`collected_count`). -/
def collect_messages (localOffset : Int) (s : Db) (chat_id : Int)
    (chat_title : String) (events : List RawEvent) : Nat × Db :=
  events.foldl (collect_step localOffset chat_id chat_title) (0, s)

/-- Chat entity returned by `event.get_chat()` in `handle_new_message`: a
`Channel`/`Chat` (titled), a `User`, or something else. -/
inductive ChatObj
  | group (id : Int) (title : String)
  | user (id : Int) (first : String) (last : Option String)
  | other (id : Int)
deriving Repr, DecidableEq

/-- The id of a chat entity. -/
def ChatObj.cid : ChatObj → Int
  | .group i _ => i
  | .user i _ _ => i
  | .other i => i

/-- Chat title resolution of `handle_new_message` (`src/teleton/main.py`
lines 227-232). -/
def chat_display_title : ChatObj → String
  | .group _ title => title
  | .user _ first last => (first ++ " " ++ str_or last "").trim
  | .other i => toString i

/-- Embedding of the live event handler `handle_new_message`
(`src/teleton/main.py` lines 217-281): same normalizer pipeline as the
backfill loop, with the chat id taken from the resolved chat entity; the
saved/duplicate boolean is discarded. -/
def handle_new_message (localOffset : Int) (s : Db) (chat : ChatObj)
    (ev : RawEvent) : Db :=
  let chat_title := chat_display_title chat
  let sender_name := resolve_sender_name ev chat_title
  if IGNORED_SENDERS.contains sender_name then
    s
  else
    let text := str_or ev.text MEDIA_PLACEHOLDER
    let sender_id_value := ev.sender_id.getD chat.cid
    let local_date := (normalize_date localOffset ev.date).wall
    (save_message none s ev.id chat.cid (some sender_name)
      (some sender_id_value) (some text) local_date).2

/-- Outcome of the external `generate_summary` call of
`src/bot/gigachat.py`: success with the summary text, a
`GigaChatAuthError`, or a `GigaChatAPIError`.  `_call_chat_api` wraps
network failures (`requests.exceptions.RequestException`) into
`GigaChatAPIError`, so `apiError` covers both API and network failures. -/
inductive SummarizerOutcome
  | ok (summary : String)
  | authError
  | apiError
deriving Repr, DecidableEq

/-- The prompt construction of `handle_summary` together with
`_prepare_prompt` (`src/bot/main_telebot.py` lines 61-69 and 103-114): one
line per fetched row, `[date] sender: text`, with falsy senders replaced
by "unknown" and falsy text by the empty string. -/
def prepare_prompt (records : List Row) : String :=
  String.intercalate "\n"
    (records.map (fun r =>
      "[" ++ toString r.date ++ "] " ++ str_or r.sender "unknown" ++ ": " ++
        r.text.getD ""))

/-- Observable outcome of one summarization cycle. -/
inductive CycleResult
  | nothingToDo
  | success (summary : String)
  | sendFailed
  | authFailed
  | apiFailed
deriving Repr, DecidableEq

/-- Core of the `/summary` handler `handle_summary`
(`src/bot/main_telebot.py` lines 97-145): fetch the batch; reply and stop
when it is empty; call the summarizer on the prompt; on success send the
reply and only then `mark_summarized` on the fetched row ids; an
`ApiTelegramException` from the send (`sendOk = false`), a
`GigaChatAuthError` or a `GigaChatAPIError` is caught before
`mark_summarized` runs, leaving the database untouched. -/
def run_summary_cycle (s : Db) (limit : Nat)
    (summarizer : String → SummarizerOutcome) (sendOk : Bool) :
    Db × CycleResult :=
  if (fetch_unsummarized s limit).isEmpty then
    (s, .nothingToDo)
  else
    match summarizer (prepare_prompt (fetch_unsummarized s limit)) with
    | .ok summary =>
      if sendOk then
        (mark_summarized s ((fetch_unsummarized s limit).map Row.id),
          .success summary)
      else
        (s, .sendFailed)
    | .authError => (s, .authFailed)
    | .apiError => (s, .apiFailed)

/-- Limit parsing of `handle_summary` (`src/bot/main_telebot.py` lines
89-95): `parts = message.text.split()`; when a second token exists it is
parsed with `int()` and the result clamped by `max(1, min(limit, 200))`;
when it is absent the default 50 goes through the same clamp; a
`ValueError` from `int()` sets the limit to 50.  `intParse` models Python
`int()` on a string: `some n` on success, `none` when it raises
`ValueError`. -/
def handle_summary_limit (parts : List String)
    (intParse : String → Option Int) : Int :=
  match parts with
  | _ :: arg :: _ =>
    match intParse arg with
    | some n => max 1 (min n 200)
    | none => 50
  | _ => max 1 (min 50 200)

lemma insert_conflict_of_mem_id {s : Db} {i : Int} (c : Int)
    (h : ∃ r ∈ s, r.id = i) : insert_conflict s i c = true := by
  obtain ⟨r, hr, hid⟩ := h
  have h1 : s.any (fun r => r.id == i) = true :=
    List.any_eq_true.mpr ⟨r, hr, by simp [hid]⟩
  simp [insert_conflict, h1]

/-- C1: re-inserting a message whose `(id, chat_id)` pair is already
stored returns `false` ("not inserted", not an error), leaves the row
count unchanged, and preserves every field of the original row: the store
comes back unchanged, so nothing is overwritten. -/
theorem save_message_duplicate_noop (s : Db) (i c : Int)
    (sender : Option String) (sid : Option Int) (tx : Option String)
    (d : Int) (h : ∃ r ∈ s, r.id = i ∧ r.chat_id = c) :
    (save_message none s i c sender sid tx d).1 = false ∧
    (save_message none s i c sender sid tx d).2 = s ∧
    (save_message none s i c sender sid tx d).2.length = s.length := by
  have hc : insert_conflict s i c = true :=
    insert_conflict_of_mem_id c
      (by obtain ⟨r, hr, hid, _⟩ := h; exact ⟨r, hr, hid⟩)
  simp [save_message, hc]

/-- Concrete row used by several witnesses. -/
def w_row1 : Row :=
  { id := 7, chat_id := 3, sender := some "Ann", sender_id := some 9,
    text := some "hi", date := 100, summarized := false }

/-- Witness for `save_message_duplicate_noop` at a concrete store holding
the pair `(7, 3)`. -/
theorem save_message_duplicate_noop_witness :
    (∃ r ∈ [w_row1], r.id = 7 ∧ r.chat_id = 3) ∧
    (save_message none [w_row1] 7 3 (some "Bob") (some 1) (some "x") 200).1
      = false ∧
    (save_message none [w_row1] 7 3 (some "Bob") (some 1) (some "x") 200).2
      = [w_row1] ∧
    (save_message none [w_row1] 7 3 (some "Bob") (some 1) (some "x")
      200).2.length = [w_row1].length := by
  have h : ∃ r ∈ [w_row1], r.id = 7 ∧ r.chat_id = 3 :=
    ⟨w_row1, by simp, by decide, by decide⟩
  exact ⟨h, save_message_duplicate_noop [w_row1] 7 3 (some "Bob") (some 1)
    (some "x") 200 h⟩

/-- C2: evaluation at the failing input.  Because the schema makes `id`
alone the PRIMARY KEY, inserting message id 1 into chat 100 and then
message id 1 into chat 200 ignores the second insert: it returns `false`
and the store keeps a single row, whereas the documented `(id, chat_id)`
uniqueness would accept both. -/
theorem save_message_same_id_other_chat_rejected :
    (save_message none [] 1 100 (some "a") (some 5) (some "x") 0).2 =
      [{ id := 1, chat_id := 100, sender := some "a", sender_id := some 5,
         text := some "x", date := 0, summarized := false }] ∧
    save_message none
        (save_message none [] 1 100 (some "a") (some 5) (some "x") 0).2
        1 200 (some "b") (some 6) (some "y") 0 =
      (false, (save_message none [] 1 100 (some "a") (some 5) (some "x") 0).2) ∧
    (save_message none
        (save_message none [] 1 100 (some "a") (some 5) (some "x") 0).2
        1 200 (some "b") (some 6) (some "y") 0).2.length = 1 :=
  ⟨by decide, by decide, by decide⟩

/-- C9: `save_message` never propagates an exception: under any injected
internal database failure it returns `false` with the store unchanged,
which is the same return value a fault-free duplicate insert produces, so
a caller cannot distinguish a storage error from a duplicate. -/
theorem save_message_error_reported_as_false (f : DbFault) (s : Db)
    (i c : Int) (sender : Option String) (sid : Option Int)
    (tx : Option String) (d : Int) :
    save_message (some f) s i c sender sid tx d = (false, s) ∧
    (∀ _ : ∃ r ∈ s, r.id = i ∧ r.chat_id = c,
      (save_message none s i c sender sid tx d).1 = false) := by
  refine ⟨rfl, fun h => ?_⟩
  have hc : insert_conflict s i c = true :=
    insert_conflict_of_mem_id c
      (by obtain ⟨r, hr, hid, _⟩ := h; exact ⟨r, hr, hid⟩)
  simp [save_message, hc]

/-- Witness for `save_message_error_reported_as_false`: a concrete failed
insert and a concrete duplicate insert both report `false`. -/
theorem save_message_error_reported_as_false_witness :
    save_message (some .connectFailure) [w_row1] 7 3 (some "A") none none 0
      = (false, [w_row1]) ∧
    (save_message none [w_row1] 7 3 (some "A") none none 0).1 = false := by
  have t := save_message_error_reported_as_false .connectFailure [w_row1]
    7 3 (some "A") none none 0
  exact ⟨t.1, t.2 ⟨w_row1, by simp, by decide, by decide⟩⟩

/-- Row living in chat 0, used by the count counterexample. -/
def w_row_zero : Row :=
  { id := 1, chat_id := 0, sender := none, sender_id := none,
    text := some "a", date := 0, summarized := false }

/-- Row living in chat 5, used by the count counterexample. -/
def w_row_five : Row :=
  { id := 2, chat_id := 5, sender := none, sender_id := none,
    text := some "b", date := 1, summarized := false }

/-- C8 counterexample: with one row in chat 0 and one in chat 5, the count
requested for chat id 0 returns the total 2, not the per-chat count 1,
because the Python guard `if chat_id:` treats the integer 0 as absent. -/
theorem get_message_count_zero_chat_counterexample :
    get_message_count [w_row_zero, w_row_five] (some 0) = 2 ∧
    (([w_row_zero, w_row_five] : Db).filter
      (fun r => r.chat_id == 0)).length = 1 := by
  decide

/-- C8 amended: `count` with no argument returns the total number of
stored messages; for every non-zero chat id it returns exactly the number
of rows of that chat; the argument 0 is treated like an absent argument
and returns the total. -/
theorem get_message_count_spec (s : Db) :
    get_message_count s none = s.length ∧
    get_message_count s (some 0) = s.length ∧
    ∀ c : Int, c ≠ 0 → get_message_count s (some c) =
      (s.filter (fun r => r.chat_id == c)).length := by
  refine ⟨rfl, by simp [get_message_count], fun c hc => ?_⟩
  simp [get_message_count, hc]

/-- Witness for `get_message_count_spec` at chat id 5. -/
theorem get_message_count_spec_witness :
    (5 : Int) ≠ 0 ∧
    get_message_count [w_row_zero, w_row_five] (some 5) =
      (([w_row_zero, w_row_five] : Db).filter
        (fun r => r.chat_id == 5)).length :=
  ⟨by decide, (get_message_count_spec [w_row_zero, w_row_five]).2.2 5
    (by decide)⟩

/-- C3: for every store state and every limit, `fetch_unsummarized`
returns at most `limit` rows, every returned row has `summarized = false`,
and the returned rows are ordered by `date` descending (newest first). -/
theorem fetch_unsummarized_spec (s : Db) (limit : Nat) :
    (fetch_unsummarized s limit).length ≤ limit ∧
    (∀ r ∈ fetch_unsummarized s limit, r.summarized = false) ∧
    List.Pairwise (fun a b : Row => b.date ≤ a.date)
      (fetch_unsummarized s limit) := by
  unfold fetch_unsummarized
  refine ⟨List.length_take_le _ _, fun r hr => ?_, ?_⟩
  · have hr' : r ∈ s.filter (fun r => r.summarized == false) :=
      List.mem_mergeSort.mp (List.mem_of_mem_take hr)
    simpa using (List.mem_filter.mp hr').2
  · have hs := @List.sorted_mergeSort Row
      (fun a b : Row => decide (b.date ≤ a.date))
      (fun a b c h1 h2 => by simp at h1 h2 ⊢; omega)
      (fun a b => by simp; omega)
      (s.filter (fun r => r.summarized == false))
    have hs' : List.Pairwise (fun a b : Row => b.date ≤ a.date)
        ((s.filter (fun r => r.summarized == false)).mergeSort
          (fun a b => decide (b.date ≤ a.date))) :=
      hs.imp (fun h => by simpa using h)
    exact List.Pairwise.sublist (List.take_sublist _ _) hs'

/-- Unsummarized row used by the fetch witness. -/
def w_rowF : Row :=
  { id := 21, chat_id := 4, sender := some "F", sender_id := some 1,
    text := some "f", date := 50, summarized := false }

/-- Already-summarized row used by the fetch witness. -/
def w_rowT : Row :=
  { id := 22, chat_id := 4, sender := some "T", sender_id := some 2,
    text := some "t", date := 60, summarized := true }

/-- Witness for `fetch_unsummarized_spec` at a concrete two-row store. -/
theorem fetch_unsummarized_spec_witness :
    (fetch_unsummarized [w_rowT, w_rowF] 1).length ≤ 1 ∧
    w_rowF.summarized = false := by
  refine ⟨(fetch_unsummarized_spec [w_rowT, w_rowF] 1).1,
    (fetch_unsummarized_spec [w_rowT, w_rowF] 1).2.1 w_rowF ?_⟩
  have hfil : ([w_rowT, w_rowF] : Db).filter
      (fun r => r.summarized == false) = [w_rowF] := by decide
  unfold fetch_unsummarized
  rw [hfil]
  simp

lemma mark_summarized_eq_map (s : Db) (ids : List Int) :
    mark_summarized s ids =
      s.map (fun r =>
        if ids.contains r.id then { r with summarized := true } else r) := by
  unfold mark_summarized
  cases ids with
  | nil => simp
  | cons a t => simp

/-- C5: `mark_summarized` rewrites the store row by row, setting
`summarized := true` on exactly the rows whose id is listed and returning
every other row unchanged (and touching no other field of the updated
rows); on empty input it is a complete no-op. -/
theorem mark_summarized_spec :
    (∀ (s : Db) (ids : List Int),
      mark_summarized s ids =
        s.map (fun r =>
          if ids.contains r.id then { r with summarized := true } else r)) ∧
    (∀ s : Db, mark_summarized s [] = s) := by
  refine ⟨mark_summarized_eq_map, fun s => ?_⟩
  rw [mark_summarized_eq_map]
  simp

/-- C10: the `/summary` limit is `max(1, min(n, 200))` for a numeric
argument `n`, and 50 when the argument is absent or not a valid
integer. -/
theorem handle_summary_limit_spec (intParse : String → Option Int) :
    (∀ (c a : String) (rest : List String) (n : Int), intParse a = some n →
      handle_summary_limit (c :: a :: rest) intParse = max 1 (min n 200)) ∧
    (∀ (c a : String) (rest : List String), intParse a = none →
      handle_summary_limit (c :: a :: rest) intParse = 50) ∧
    (∀ c : String, handle_summary_limit [c] intParse = 50) ∧
    handle_summary_limit [] intParse = 50 := by
  refine ⟨fun c a rest n h => ?_, fun c a rest h => ?_, fun c => ?_, ?_⟩
  · simp [handle_summary_limit, h]
  · simp [handle_summary_limit, h]
  · show max 1 (min (50 : Int) 200) = 50
    decide
  · show max 1 (min (50 : Int) 200) = 50
    decide

/-- Model of Python `int()` used by the limit-parsing witness: "300"
parses, anything else raises `ValueError`. -/
def w_intParse : String → Option Int :=
  fun s => if s = "300" then some 300 else none

/-- Witness for `handle_summary_limit_spec`: a parsed argument of 300 is
clamped through `max 1 (min 300 200)` and an unparsable argument falls
back to 50. -/
theorem handle_summary_limit_spec_witness :
    w_intParse "300" = some 300 ∧
    handle_summary_limit ["/summary", "300"] w_intParse
      = max 1 (min 300 200) ∧
    w_intParse "abc" = none ∧
    handle_summary_limit ["/summary", "abc"] w_intParse = 50 := by
  have t := handle_summary_limit_spec w_intParse
  exact ⟨by decide, t.1 "/summary" "300" [] 300 (by decide), by decide,
    t.2.1 "/summary" "abc" [] (by decide)⟩

lemma mark_summarized_marks {s : Db} {ids : List Int} :
    ∀ r ∈ mark_summarized s ids, ids.contains r.id = true →
      r.summarized = true := by
  intro r hr hid
  rw [mark_summarized_eq_map] at hr
  obtain ⟨r0, hr0, hmap⟩ := List.mem_map.mp hr
  by_cases hc : ids.contains r0.id = true
  · rw [if_pos hc] at hmap
    rw [← hmap]
  · rw [if_neg hc] at hmap
    subst hmap
    exact absurd hid hc

/-- Unsummarized row used by the summarization-cycle counterexample. -/
def w_rowC : Row :=
  { id := 31, chat_id := 9, sender := some "C", sender_id := some 3,
    text := some "c", date := 40, summarized := false }

lemma fetch_single_unsummarized : fetch_unsummarized [w_rowC] 1 = [w_rowC] := by
  have hfil : ([w_rowC] : Db).filter
      (fun r => r.summarized == false) = [w_rowC] := by decide
  unfold fetch_unsummarized
  rw [hfil]
  simp

/-- C4 counterexample: on a store holding one unsummarized row, the
summarizer call succeeds but delivery of the reply fails (the
`ApiTelegramException` path of `_send_reply`); `handle_summary` catches
the exception before `mark_summarized` runs, so the fetched row keeps
`summarized = false` even though the summarizer call succeeded — refuting
the claim that summarizer success alone marks every fetched row. -/
theorem summary_cycle_send_failure_counterexample :
    fetch_unsummarized [w_rowC] 1 = [w_rowC] ∧
    run_summary_cycle [w_rowC] 1 (fun _ => .ok "sum") false
      = ([w_rowC], .sendFailed) ∧
    w_rowC.summarized = false := by
  refine ⟨fetch_single_unsummarized, ?_, by decide⟩
  unfold run_summary_cycle
  rw [fetch_single_unsummarized]
  rfl

/-- C4 amended: the summarization cycle is atomic with respect to the
summarized flag, where success means the summarizer call succeeds AND the
reply is delivered: in that case every row of the resulting store whose id
was fetched has `summarized = true`; when the summarizer fails with an
auth error or an API/network error, or when reply delivery fails after a
successful summarizer call, the store is returned unchanged, so the same
batch is selected again on the next cycle. -/
theorem run_summary_cycle_atomic (s : Db) (limit : Nat)
    (summarizer : String → SummarizerOutcome) :
    (∀ t, summarizer (prepare_prompt (fetch_unsummarized s limit)) = .ok t →
      ∀ r ∈ (run_summary_cycle s limit summarizer true).1,
        ((fetch_unsummarized s limit).map Row.id).contains r.id = true →
          r.summarized = true) ∧
    (∀ t, summarizer (prepare_prompt (fetch_unsummarized s limit)) = .ok t →
      (run_summary_cycle s limit summarizer false).1 = s) ∧
    (∀ sendOk,
      summarizer (prepare_prompt (fetch_unsummarized s limit)) = .authError →
      (run_summary_cycle s limit summarizer sendOk).1 = s) ∧
    (∀ sendOk,
      summarizer (prepare_prompt (fetch_unsummarized s limit)) = .apiError →
      (run_summary_cycle s limit summarizer sendOk).1 = s) := by
  refine ⟨fun t hok r hr hc => ?_, fun t hok => ?_, fun sendOk hfail => ?_,
    fun sendOk hfail => ?_⟩
  · cases hE : (fetch_unsummarized s limit).isEmpty with
    | true =>
      rw [List.isEmpty_iff.mp hE] at hc
      simp at hc
    | false =>
      have hrun : (run_summary_cycle s limit summarizer true).1 =
          mark_summarized s ((fetch_unsummarized s limit).map Row.id) := by
        unfold run_summary_cycle
        rw [hE, hok]
        rfl
      rw [hrun] at hr
      exact mark_summarized_marks r hr hc
  · cases hE : (fetch_unsummarized s limit).isEmpty with
    | true => unfold run_summary_cycle; rw [hE]; rfl
    | false => unfold run_summary_cycle; rw [hE, hok]; rfl
  · cases hE : (fetch_unsummarized s limit).isEmpty with
    | true => unfold run_summary_cycle; rw [hE]; rfl
    | false => unfold run_summary_cycle; rw [hE, hfail]; rfl
  · cases hE : (fetch_unsummarized s limit).isEmpty with
    | true => unfold run_summary_cycle; rw [hE]; rfl
    | false => unfold run_summary_cycle; rw [hE, hfail]; rfl


/-- Witness for `run_summary_cycle_atomic`: on a concrete one-row store, a
successful summarizer call followed by a successful send marks the fetched
row, and an auth failure leaves the store unchanged. -/
theorem run_summary_cycle_atomic_witness :
    (fun _ : String => SummarizerOutcome.ok "sum")
        (prepare_prompt (fetch_unsummarized [w_rowC] 1)) = .ok "sum" ∧
    ({ w_rowC with summarized := true } ∈
        (run_summary_cycle [w_rowC] 1 (fun _ => .ok "sum") true).1 →
      ([w_rowC].map Row.id).contains w_rowC.id = true →
        ({ w_rowC with summarized := true } : Row).summarized = true) ∧
    (run_summary_cycle [w_rowC] 1 (fun _ => .authError) false).1 = [w_rowC] := by
  have t1 := (run_summary_cycle_atomic [w_rowC] 1 (fun _ => .ok "sum")).1
    "sum" rfl { w_rowC with summarized := true }
  have t2 := ((run_summary_cycle_atomic [w_rowC] 1
    (fun _ => .authError)).2.2.1) false rfl
  refine ⟨rfl, fun hmem hcont => ?_, t2⟩
  have hcont' : ((fetch_unsummarized [w_rowC] 1).map Row.id).contains
      ({ w_rowC with summarized := true } : Row).id = true := by
    rw [fetch_single_unsummarized]
    exact hcont
  exact t1 hmem hcont'

lemma process_event_ignored {localOffset : Int} {s : Db} {chat_id : Int}
    {chat_title : String} {ev : RawEvent}
    (h : IGNORED_SENDERS.contains (resolve_sender_name ev chat_title) = true) :
    process_event localOffset s chat_id chat_title ev = (false, s) := by
  simp only [process_event]
  rw [h]
  rfl

lemma handle_new_message_ignored {localOffset : Int} {s : Db}
    {chat : ChatObj} {ev : RawEvent}
    (h : IGNORED_SENDERS.contains
      (resolve_sender_name ev (chat_display_title chat)) = true) :
    handle_new_message localOffset s chat ev = s := by
  simp only [handle_new_message]
  rw [h]
  rfl

lemma collect_ignored (localOffset : Int) (chat_id : Int)
    (chat_title : String) :
    ∀ (evs : List RawEvent) (n : Nat) (st : Db),
      (∀ ev ∈ evs,
        IGNORED_SENDERS.contains (resolve_sender_name ev chat_title) = true) →
      evs.foldl (collect_step localOffset chat_id chat_title) (n, st)
        = (n, st) := by
  intro evs
  induction evs with
  | nil => intro n st _; rfl
  | cons e t ih =>
    intro n st hall
    have hstep : collect_step localOffset chat_id chat_title (n, st) e
        = (n, st) := by
      simp [collect_step, process_event_ignored (hall e (by simp))]
    rw [List.foldl_cons, hstep]
    exact ih n st (fun ev hev => hall ev (by simp [hev]))

/-- C6: a raw event whose resolved sender display name is in the
ignored-senders set is never persisted and never counted, both by the
backfill pipeline and by the live handler, on every ingestion attempt
including repeats (the event list may repeat the same event). -/
theorem ignored_sender_never_persisted (localOffset : Int) (s : Db)
    (chat : ChatObj) (chat_id : Int) (chat_title : String)
    (events : List RawEvent)
    (h : ∀ ev ∈ events,
      IGNORED_SENDERS.contains (resolve_sender_name ev chat_title) = true)
    (h2 : ∀ ev ∈ events,
      IGNORED_SENDERS.contains
        (resolve_sender_name ev (chat_display_title chat)) = true) :
    collect_messages localOffset s chat_id chat_title events = (0, s) ∧
    events.foldl (fun db ev => handle_new_message localOffset db chat ev) s
      = s := by
  constructor
  · exact collect_ignored localOffset chat_id chat_title events 0 s h
  · induction events with
    | nil => rfl
    | cons e t ih =>
      rw [List.foldl_cons, handle_new_message_ignored (h2 e (by simp))]
      exact ih (fun ev hev => h ev (by simp [hev]))
        (fun ev hev => h2 ev (by simp [hev]))

/-- Event sent by the ignored account BotFather, used by the ignore-filter
witness. -/
def w_ev_ignored : RawEvent :=
  { id := 11, sender := some (.entity (some "BotFather")),
    sender_id := some 42, text := some "hi", date := .naive 0 }

/-- Witness for `ignored_sender_never_persisted`: repeated ingestion of a
BotFather event through the backfill pipeline saves nothing and counts
nothing. -/
theorem ignored_sender_never_persisted_witness :
    IGNORED_SENDERS.contains (resolve_sender_name w_ev_ignored "team")
      = true ∧
    collect_messages 180 [] 10 "team" [w_ev_ignored, w_ev_ignored]
      = (0, []) ∧
    handle_new_message 180 [] (.group 10 "team") w_ev_ignored = [] := by
  have t := ignored_sender_never_persisted 180 [] (.group 10 "team") 10
    "team" [w_ev_ignored, w_ev_ignored] (by decide) (by decide)
  have hl := t.2
  refine ⟨by decide, t.1, ?_⟩
  simpa using hl

/-- C7: a naive raw timestamp is treated as UTC (its stored instant equals
its wall reading) and converted to the local zone; an aware raw timestamp
is converted to the local zone directly (its instant is preserved); and
whenever a naive and an aware raw timestamp denote the same UTC moment,
both paths produce the same stored localized timestamp. -/
theorem normalize_date_spec (L w wa off : Int) (h : w = wa - off) :
    (normalize_date L (.naive w)).instant = w ∧
    (normalize_date L (.naive w)).offset = L ∧
    (normalize_date L (.aware wa off)).instant = wa - off ∧
    (normalize_date L (.aware wa off)).offset = L ∧
    normalize_date L (.naive w) = normalize_date L (.aware wa off) := by
  subst h
  refine ⟨?_, rfl, ?_, rfl, rfl⟩
  · simp only [normalize_date, LocalDT.instant]
    omega
  · simp only [normalize_date, LocalDT.instant]
    omega

/-- Witness for `normalize_date_spec`: with a local offset of +180
minutes, the naive wall reading 60 and the aware reading 120 at offset +60
denote the same UTC moment and normalize identically. -/
theorem normalize_date_spec_witness :
    (60 : Int) = 120 - 60 ∧
    (normalize_date 180 (.naive 60)).instant = 60 ∧
    normalize_date 180 (.naive 60) = normalize_date 180 (.aware 120 60) := by
  have t := normalize_date_spec 180 60 120 60 (by decide)
  exact ⟨by decide, t.1, t.2.2.2.2⟩

end TelegramSummarizer
